import Mathlib

/-!
Shallow embedding of `ruc` (`main.go`), a process supervisor.

The source holds two generations of the program.  The later one (the
authority for most claims) is:

* `run` (source lines 102-155): one supervision cycle — start the child,
  three-way wait on {context cancelled, child exited, run ticker}, send
  SIGTERM, two-way wait on {child exited, grace ticker} ignoring the
  context, send SIGKILL, wait for the exit.
* `main` (lines 157-193): flag parsing (out of core scope), a signal
  relay goroutine (first SIGTERM/SIGINT cancels the shared context, the
  second panics the process), and the supervision loop which calls
  `log.Fatal` on any non-nil result of `run`.

The earlier generation is `runOld` (source lines 15-46): it uses
`exec.CommandContext` (the context kills the child with SIGKILL when it
is done), its first select has no context branch, and there is no grace
ticker — its caller wires a `runPeriod+gracePeriod` timeout into the
context.

Time is discrete (abstract ticks measured from the start of a cycle).
A `Child` records the scheduled behaviour of the spawned process: when
it would exit on its own, and how it reacts to a delivered SIGTERM.
SIGKILL is always effective (the OS guarantee the code relies on).
A Go `select` with several ready cases picks one pseudo-randomly; the
`Oracle` resolves those ties, so quantifying over oracles quantifies
over every schedule the runtime may choose.
-/

def SIGTERM : Nat := 15

def SIGKILL : Nat := 9

def SIGINT : Nat := 2

/-- Exit status of the child as observed by `cmd.Wait`: a normal exit
with a code, or death by a signal.  `cmd.Wait` returns a nil error
exactly for `exited 0`. -/
inductive ExitStatus where
  | exited (code : Nat)
  | signaled (sig : Nat)
deriving DecidableEq, Repr

/-- Result of one cycle of `run`: the error of `cmd.Start` (launch
failure), the value of `cmd.Wait` (any child exit), or a runtime panic
(from `time.NewTicker` on a non-positive duration). -/
inductive Outcome where
  | launchError
  | completed (st : ExitStatus)
  | panicked
deriving DecidableEq, Repr

/-- A signal-send attempt performed by a cycle: at which tick, which
signal, and whether it was delivered (a send to an already-reaped
process fails and is only logged). -/
structure Sig where
  time : Nat
  signal : Nat
  delivered : Bool
deriving DecidableEq, Repr

/-- Scheduled behaviour of the child process of one cycle. -/
structure Child where
  /-- `cmd.Start` succeeds. -/
  launchOK : Bool
  /-- tick at which the child exits on its own if it is not signalled
  before; `none` = it would run forever. -/
  selfExit : Option Nat
  /-- status of that spontaneous exit. -/
  selfStatus : ExitStatus
  /-- if the child honours a delivered SIGTERM: how many ticks after the
  delivery it exits; `none` = it ignores SIGTERM. -/
  termDelay : Option Nat
  /-- status of the exit provoked by SIGTERM. -/
  termStatus : ExitStatus
deriving DecidableEq, Repr

/-- The two durations of the cycle configuration (`-run`, `-grace`),
kept as integers since `time.Duration` is signed. -/
structure Cfg where
  runPeriod : Int
  gracePeriod : Int
deriving DecidableEq, Repr

/-- Branches of the first (three-way) select of `run`. -/
inductive B1 where
  | ctxDone
  | childDone
  | runTick
deriving DecidableEq, Repr

/-- Tie-break oracle standing for Go's pseudo-random choice among the
ready cases of a `select`.  `pick1` is a preference order for the
Running-state select, `pick2` chooses the child-exit branch of the
grace select when both of its cases are ready. -/
structure Oracle where
  pick1 : List B1
  pick2 : Bool
deriving DecidableEq, Repr

/-- Resolve a select: take the oracle's most preferred ready branch
(the appended constant list makes the choice total). -/
def selectFirst (ready pref : List B1) : B1 :=
  (((pref ++ [B1.ctxDone, B1.childDone, B1.runTick]).find?
      (fun b => decide (b ∈ ready))).getD B1.childDone)

/-- Exit the child would perform after the SIGTERM attempt at `tEsc`:
its own scheduled exit, or the response to a delivered SIGTERM,
whichever is earlier (its own exit wins ties). -/
def exitAfterTerm? (ch : Child) (tEsc : Nat) (delivered : Bool) :
    Option (Nat × ExitStatus) :=
  match ch.selfExit, (if delivered then ch.termDelay.map (fun d => tEsc + d) else none) with
  | none, none => none
  | some t, none => some (t, ch.selfStatus)
  | none, some r => some (r, ch.termStatus)
  | some t, some r => if t ≤ r then some (t, ch.selfStatus) else some (r, ch.termStatus)

/-- Source lines 133-155 of the later `run`: the SIGTERM attempt at
`tEsc`, the grace select (child exit vs `graceT`, the context is
ignored), the SIGKILL attempt, and the final untimed wait. -/
def graceWaitKill (ch : Child) (G tEsc : Nat) (delivered pick2 : Bool) :
    Outcome × List Sig :=
  let ev1 : Sig := ⟨tEsc, SIGTERM, delivered⟩
  let tKill := tEsc + G
  match exitAfterTerm? ch tEsc delivered with
  | some (t, st) =>
    if t < tKill then (.completed st, [ev1])
    else if t = tKill then
      (if pick2 then (.completed st, [ev1])
       else (.completed st, [ev1, ⟨tKill, SIGKILL, false⟩]))
    else (.completed (.signaled SIGKILL), [ev1, ⟨tKill, SIGKILL, true⟩])
  | none => (.completed (.signaled SIGKILL), [ev1, ⟨tKill, SIGKILL, true⟩])

/-- Source lines 39-45 of the earlier `run`: the SIGTERM attempt at
`tEsc` followed by a single wait on the exit channel, racing the
child's own exit and SIGTERM response against the SIGKILL the
`exec.CommandContext` machinery fires when the context is done at
`tctx` (the child's own exit wins a tie against that kill). -/
def ctxKillWait (ch : Child) (tctx tEsc : Nat) (delivered : Bool) :
    Outcome × List Sig :=
  let ev1 : Sig := ⟨tEsc, SIGTERM, delivered⟩
  match exitAfterTerm? ch tEsc delivered with
  | some (t, st) =>
    if t ≤ tctx then (.completed st, [ev1])
    else (.completed (.signaled SIGKILL), [ev1, ⟨tctx, SIGKILL, true⟩])
  | none => (.completed (.signaled SIGKILL), [ev1, ⟨tctx, SIGKILL, true⟩])

/-- The later `run` (source lines 102-155).  `cancel` is the tick at
which the caller's context becomes done (`none` = never), clamped to
the cycle start.  The ticker constructions panic on non-positive
durations exactly where `time.NewTicker` does in the source (line 103
before `cmd.Start`, line 139 after the SIGTERM). -/
def run (cfg : Cfg) (ch : Child) (cancel : Option Nat) (orc : Oracle) :
    Outcome × List Sig :=
  if cfg.runPeriod ≤ 0 then (.panicked, []) else
  if !ch.launchOK then (.launchError, []) else
  let R := cfg.runPeriod.toNat
  let m := min R (min (cancel.getD R) (ch.selfExit.getD R))
  let ready := (if cancel = some m then [B1.ctxDone] else [])
            ++ (if ch.selfExit = some m then [B1.childDone] else [])
            ++ (if R = m then [B1.runTick] else [])
  match selectFirst ready orc.pick1 with
  | B1.childDone => (.completed ch.selfStatus, [])
  | _ =>
    let delivered := match ch.selfExit with
      | none => true
      | some t => decide (m < t)
    if cfg.gracePeriod ≤ 0 then (.panicked, [⟨m, SIGTERM, delivered⟩])
    else graceWaitKill ch cfg.gracePeriod.toNat m delivered orc.pick2

/-- The earlier `run` (source lines 15-46).  Its caller passes a
context with a `runPeriod + gracePeriod` timeout derived from the
shared cancellable context, and `exec.CommandContext` SIGKILLs the
child once that context is done (at `tctx`); the first select has only
the exit channel and the run ticker. -/
def runOld (cfg : Cfg) (ch : Child) (cancel : Option Nat) (orc : Oracle) :
    Outcome × List Sig :=
  if cfg.runPeriod ≤ 0 then (.panicked, []) else
  if !ch.launchOK then (.launchError, []) else
  let R := cfg.runPeriod.toNat
  let timeout := (cfg.runPeriod + cfg.gracePeriod).toNat
  let tctx := match cancel with
    | none => timeout
    | some c => min c timeout
  let eA := match ch.selfExit with
    | none => tctx
    | some t => min t tctx
  let m := min eA R
  let ready := (if eA = m then [B1.childDone] else [])
            ++ (if R = m then [B1.runTick] else [])
  match selectFirst ready orc.pick1 with
  | B1.runTick => ctxKillWait ch tctx R (decide (R < eA))
  | _ =>
    match ch.selfExit with
    | some t =>
      if t ≤ tctx then (.completed ch.selfStatus, [])
      else (.completed (.signaled SIGKILL), [⟨tctx, SIGKILL, true⟩])
    | none => (.completed (.signaled SIGKILL), [⟨tctx, SIGKILL, true⟩])

/-- State of the signal-relay goroutine (source lines 179-186): still
listening with the shared context not yet / already cancelled, or the
process torn down by `log.Panicf`. -/
inductive RelayState where
  | listening (cancelRaised : Bool)
  | dead
deriving DecidableEq, Repr

/-- One received SIGTERM/SIGINT: the first cancels the shared context
and keeps listening, the second panics the whole process. -/
def relayStep : RelayState → Nat → RelayState
  | .listening false, _ => .listening true
  | .listening true, _ => .dead
  | .dead, _ => .dead

/-- The relay applied to the sequence of received signals. -/
def relay (sigs : List Nat) : RelayState :=
  sigs.foldl relayStep (.listening false)

/-- The shared context, as a cancellation token: raised at tick `t`
when it was cancelled at some `c ≤ t`. -/
def cancelRaised (cancel : Option Nat) (t : Nat) : Prop :=
  ∃ c, cancel = some c ∧ c ≤ t

/-- `run ... err != nil` in `main`: the error is nil exactly when the
child exited with status 0. -/
def runErrIsNil : Outcome → Bool
  | .completed (.exited 0) => true
  | _ => false

/-- One scheduled cycle of the supervision loop: the child's behaviour,
the cancellation tick, and the runtime's tie-breaks. -/
structure CycleScen where
  child : Child
  cancel : Option Nat
  orc : Oracle
deriving DecidableEq, Repr

/-- How the supervision loop ends, seen over finitely many scheduled
cycles: still looping, crashed by a panic, or stopped by `log.Fatal`. -/
inductive LoopRes where
  | stillRunning
  | crashed
  | fatal (o : Outcome)
deriving DecidableEq, Repr

/-- The `for` loop of `main` (source lines 188-192): call `run`, loop
again if it returned nil, otherwise `log.Fatal` (a panic escapes and
crashes the process). -/
def mainLoop (cfg : Cfg) : List CycleScen → LoopRes
  | [] => .stillRunning
  | s :: rest =>
    match run cfg s.child s.cancel s.orc with
    | (.panicked, _) => .crashed
    | (o, _) => if runErrIsNil o then mainLoop cfg rest else .fatal o

/-- Exit code of the supervisor process for a finished loop:
`log.Fatal` exits 1, a panic exits 2, `none` while still looping. -/
def processExitCode : LoopRes → Option Nat
  | .stillRunning => none
  | .crashed => some 2
  | .fatal _ => some 1

theorem selectFirst_mem (ready pref : List B1) (h : ready ≠ []) :
    selectFirst ready pref ∈ ready := by
  unfold selectFirst
  rcases hf : (pref ++ [B1.ctxDone, B1.childDone, B1.runTick]).find?
      (fun b => decide (b ∈ ready)) with _ | b
  · exfalso
    rcases ready with _ | ⟨x, xs⟩
    · exact h rfl
    · have hx : x ∈ pref ++ [B1.ctxDone, B1.childDone, B1.runTick] := by
        cases x <;> simp
      have hfalse := List.find?_eq_none.mp hf x hx
      simp at hfalse
  · have hb := List.find?_some hf
    simp only [Option.getD_some]
    simpa using hb

theorem selectFirst_single (b : B1) (pref : List B1) : selectFirst [b] pref = b := by
  have := selectFirst_mem [b] pref (by simp)
  simpa using this

theorem relay_dead_absorb (l : List Nat) : l.foldl relayStep .dead = .dead := by
  induction l with
  | nil => rfl
  | cons x xs ih => simpa [relayStep] using ih

/-- C7: the Signal Relay raises the shared cancellation on the first
received SIGTERM or SIGINT and the supervisor keeps running; any second
received signal, whenever it arrives, terminates the supervisor process
(`log.Panicf`).  The relay goroutine reads the channel independently of
the supervision loop, so this holds also while a cycle blocks in the
kill wait. -/
theorem relay_first_cancels_second_terminates (s1 s2 : Nat) (rest : List Nat) :
    relay [s1] = .listening true ∧ relay (s1 :: s2 :: rest) = .dead := by
  constructor
  · rfl
  · show (s1 :: s2 :: rest).foldl relayStep (.listening false) = RelayState.dead
    simpa [relayStep] using relay_dead_absorb rest

theorem relay_first_cancels_second_terminates_witness :
    relay [15] = .listening true ∧ relay (15 :: 2 :: [15]) = .dead :=
  relay_first_cancels_second_terminates 15 2 [15]

/-- C1 (claim contradicted by the code): `main` calls `log.Fatal` on
every non-nil result of `run`, so a child exiting on its own with
status 1 stops the whole supervisor instead of starting a new cycle,
and even the designed SIGKILL escalation ends the loop, because
`cmd.Wait` then returns a non-nil error.  The first conjunct evaluates
the loop at the failing input (run=60, grace=10, child exits by itself
at tick 3 with status 1, one further cycle scheduled): the loop reports
a fatal outcome and never reaches the second cycle.  The second
conjunct shows a child that ignores SIGTERM brings the loop down too. -/
theorem mainLoop_fatal_on_child_crash :
    mainLoop ⟨60, 10⟩
        [⟨⟨true, some 3, .exited 1, none, .exited 0⟩, none, ⟨[], true⟩⟩,
         ⟨⟨true, some 3, .exited 1, none, .exited 0⟩, none, ⟨[], true⟩⟩]
      = .fatal (.completed (.exited 1)) ∧
    mainLoop ⟨60, 10⟩ [⟨⟨true, none, .exited 0, none, .exited 0⟩, none, ⟨[], true⟩⟩]
      = .fatal (.completed (.signaled SIGKILL)) :=
  ⟨rfl, rfl⟩

/-- C8: a cycle whose command cannot be launched makes `run` return the
launch error; `main` then stops with a non-zero exit status and no
further cycle is attempted — the loop's result ignores every scheduled
later cycle, whatever it is. -/
theorem launch_error_fatal_no_retry (cfg : Cfg) (ch : Child) (cancel : Option Nat)
    (orc : Oracle) (rest : List CycleScen) (hR : 0 < cfg.runPeriod)
    (hL : ch.launchOK = false) :
    run cfg ch cancel orc = (.launchError, []) ∧
    mainLoop cfg (⟨ch, cancel, orc⟩ :: rest) = .fatal .launchError ∧
    processExitCode (mainLoop cfg (⟨ch, cancel, orc⟩ :: rest)) ≠ some 0 := by
  have hrun : run cfg ch cancel orc = (.launchError, []) := by
    unfold run
    rw [if_neg (by omega), hL]
    rfl
  refine ⟨hrun, ?_, ?_⟩
  · unfold mainLoop
    rw [hrun]
    rfl
  · unfold mainLoop
    rw [hrun]
    simp [runErrIsNil, processExitCode]

theorem launch_error_fatal_no_retry_witness :
    run ⟨60, 10⟩ ⟨false, none, .exited 0, none, .exited 0⟩ none ⟨[], true⟩
      = (.launchError, []) ∧
    mainLoop ⟨60, 10⟩
        [⟨⟨false, none, .exited 0, none, .exited 0⟩, none, ⟨[], true⟩⟩,
         ⟨⟨true, some 1, .exited 0, none, .exited 0⟩, none, ⟨[], true⟩⟩]
      = .fatal .launchError :=
  ⟨(launch_error_fatal_no_retry ⟨60, 10⟩ ⟨false, none, .exited 0, none, .exited 0⟩
      none ⟨[], true⟩ [⟨⟨true, some 1, .exited 0, none, .exited 0⟩, none, ⟨[], true⟩⟩]
      (by norm_num) rfl).1,
   (launch_error_fatal_no_retry ⟨60, 10⟩ ⟨false, none, .exited 0, none, .exited 0⟩
      none ⟨[], true⟩ [⟨⟨true, some 1, .exited 0, none, .exited 0⟩, none, ⟨[], true⟩⟩]
      (by norm_num) rfl).2.1⟩

theorem run_escalates (cfg : Cfg) (ch : Child) (cancel : Option Nat) (orc : Oracle)
    (hR : 0 < cfg.runPeriod) (hL : ch.launchOK = true) (hS : ch.selfExit = none) :
    run cfg ch cancel orc =
      (if cfg.gracePeriod ≤ 0 then
        (.panicked, [⟨min cfg.runPeriod.toNat (cancel.getD cfg.runPeriod.toNat), SIGTERM, true⟩])
      else graceWaitKill ch cfg.gracePeriod.toNat
        (min cfg.runPeriod.toNat (cancel.getD cfg.runPeriod.toNat)) true orc.pick2) := by
  simp only [run, hL, hS, if_neg (show ¬cfg.runPeriod ≤ 0 by omega), Bool.not_true,
    Bool.false_eq_true, if_false, Option.getD_none, reduceCtorEq, List.nil_append,
    List.append_nil]
  rcases cancel with _ | c
  · simp only [Option.getD_none, Nat.min_self, reduceCtorEq, if_false, if_true,
      eq_self_iff_true, List.nil_append]
    rw [selectFirst_single]
  · simp only [Option.getD_some]
    rcases lt_trichotomy c cfg.runPeriod.toNat with h | h | h
    · simp only [show min cfg.runPeriod.toNat (min c cfg.runPeriod.toNat) = c by omega,
        show min cfg.runPeriod.toNat c = c by omega, eq_self_iff_true, if_true,
        if_neg (show ¬cfg.runPeriod.toNat = c by omega), List.append_nil]
      rw [selectFirst_single]
    · subst h
      simp only [Nat.min_self, eq_self_iff_true, if_true, List.singleton_append]
      have hmem := selectFirst_mem [B1.ctxDone, B1.runTick] orc.pick1 (by simp)
      rcases hsel : selectFirst [B1.ctxDone, B1.runTick] orc.pick1 with _ | _ | _
      · rfl
      · rw [hsel] at hmem
        simp at hmem
      · rfl
    · simp only [show min cfg.runPeriod.toNat (min c cfg.runPeriod.toNat)
          = cfg.runPeriod.toNat by omega,
        show min cfg.runPeriod.toNat c = cfg.runPeriod.toNat by omega,
        if_neg (show ¬(some c = some cfg.runPeriod.toNat) by simp; omega),
        eq_self_iff_true, if_true, List.nil_append]
      rw [selectFirst_single]

theorem graceWaitKill_killed (ch : Child) (G tEsc : Nat) (p : Bool)
    (hS : ch.selfExit = none) (hT : ch.termDelay = none) :
    graceWaitKill ch G tEsc true p =
      (.completed (.signaled SIGKILL),
       [⟨tEsc, SIGTERM, true⟩, ⟨tEsc + G, SIGKILL, true⟩]) := by
  simp [graceWaitKill, exitAfterTerm?, hS, hT]

/-- C2: whatever the configuration (positive durations) and whatever the
cancellation tick, a cycle whose child neither exits on its own nor
honours SIGTERM gets exactly one delivered SIGTERM (at the escalation
tick) followed by exactly one delivered SIGKILL a full grace period
later, and `run` returns only once that final exit is observed — the
outcome is the child's kill status, produced by the untimed final wait. -/
theorem sigterm_then_sigkill_exactly_once (cfg : Cfg) (ch : Child)
    (cancel : Option Nat) (orc : Oracle) (hR : 0 < cfg.runPeriod)
    (hG : 0 < cfg.gracePeriod) (hL : ch.launchOK = true)
    (hS : ch.selfExit = none) (hT : ch.termDelay = none) :
    run cfg ch cancel orc =
      (.completed (.signaled SIGKILL),
       [⟨min cfg.runPeriod.toNat (cancel.getD cfg.runPeriod.toNat), SIGTERM, true⟩,
        ⟨min cfg.runPeriod.toNat (cancel.getD cfg.runPeriod.toNat) + cfg.gracePeriod.toNat,
         SIGKILL, true⟩]) := by
  rw [run_escalates cfg ch cancel orc hR hL hS, if_neg (by omega),
    graceWaitKill_killed ch _ _ _ hS hT]

theorem sigterm_then_sigkill_exactly_once_witness :
    run ⟨5, 3⟩ ⟨true, none, .exited 0, none, .exited 0⟩ none ⟨[], true⟩
      = (.completed (.signaled SIGKILL),
         [⟨5, SIGTERM, true⟩, ⟨8, SIGKILL, true⟩]) := by
  exact sigterm_then_sigkill_exactly_once ⟨5, 3⟩ ⟨true, none, .exited 0, none, .exited 0⟩
    none ⟨[], true⟩ (by norm_num) (by norm_num) rfl rfl rfl

/-- C3: (1) cancellation raised at tick `c` while the cycle is Running
(before the run ticker, child still alive) ends the run phase at `c`
but the SIGKILL still comes only a full `gracePeriod` after the
SIGTERM — at exactly `c + gracePeriod`; (2) cancellation that becomes
visible only after the escalation tick (i.e. during Terminating or
Killing) changes nothing at all: the cycle behaves exactly as if it
had never been cancelled, because the grace select ignores the
context. -/
theorem cancel_running_honors_full_grace :
    (∀ (cfg : Cfg) (ch : Child) (c : Nat) (orc : Oracle),
      ch.launchOK = true → ch.selfExit = none → ch.termDelay = none →
      (c : Int) < cfg.runPeriod → 0 < cfg.gracePeriod →
      run cfg ch (some c) orc =
        (.completed (.signaled SIGKILL),
         [⟨c, SIGTERM, true⟩, ⟨c + cfg.gracePeriod.toNat, SIGKILL, true⟩])) ∧
    (∀ (cfg : Cfg) (ch : Child) (c : Nat) (orc : Oracle),
      cfg.runPeriod.toNat < c →
      run cfg ch (some c) orc = run cfg ch none orc) := by
  constructor
  · intro cfg ch c orc hL hS hT hc hG
    have hR : 0 < cfg.runPeriod := by omega
    rw [run_escalates cfg ch (some c) orc hR hL hS, if_neg (by omega),
      graceWaitKill_killed ch _ _ _ hS hT]
    simp only [Option.getD_some, show min cfg.runPeriod.toNat c = c by omega]
  · intro cfg ch c orc hc
    by_cases h0 : cfg.runPeriod ≤ 0
    · simp [run, h0]
    cases hL : ch.launchOK
    · simp [run, h0, hL]
    · simp only [run, hL, Bool.not_true, Bool.false_eq_true, if_false, if_neg h0,
        Option.getD_some, Option.getD_none]
      simp only [show min cfg.runPeriod.toNat (min c (ch.selfExit.getD cfg.runPeriod.toNat))
          = min cfg.runPeriod.toNat
              (min cfg.runPeriod.toNat (ch.selfExit.getD cfg.runPeriod.toNat)) by omega]
      simp only [if_neg (show ¬(some c
          = some (min cfg.runPeriod.toNat
              (min cfg.runPeriod.toNat (ch.selfExit.getD cfg.runPeriod.toNat))))
          by simp; omega), reduceCtorEq, if_false]

theorem cancel_running_honors_full_grace_witness :
    run ⟨5, 3⟩ ⟨true, none, .exited 0, none, .exited 0⟩ (some 1) ⟨[], true⟩
      = (.completed (.signaled SIGKILL), [⟨1, SIGTERM, true⟩, ⟨4, SIGKILL, true⟩]) ∧
    run ⟨5, 3⟩ ⟨true, none, .exited 0, some 1, .exited 0⟩ (some 7) ⟨[], true⟩
      = run ⟨5, 3⟩ ⟨true, none, .exited 0, some 1, .exited 0⟩ none ⟨[], true⟩ :=
  ⟨cancel_running_honors_full_grace.1 ⟨5, 3⟩ ⟨true, none, .exited 0, none, .exited 0⟩
      1 ⟨[], true⟩ rfl rfl rfl (by norm_num) (by norm_num),
   cancel_running_honors_full_grace.2 ⟨5, 3⟩ ⟨true, none, .exited 0, some 1, .exited 0⟩
      7 ⟨[], true⟩ (by norm_num)⟩

theorem graceWaitKill_head (ch : Child) (G tEsc : Nat) (del p : Bool) :
    ((graceWaitKill ch G tEsc del p).2).head? = some ⟨tEsc, SIGTERM, del⟩ := by
  simp only [graceWaitKill]
  rcases exitAfterTerm? ch tEsc del with _ | ⟨t, st⟩
  · rfl
  · dsimp only
    split_ifs <;> rfl

theorem graceWaitKill_undelivered_self (ch : Child) (G t : Nat) (p : Bool)
    (hS : ch.selfExit = some t) (hG : 0 < G) :
    graceWaitKill ch G t false p = (.completed ch.selfStatus, [⟨t, SIGTERM, false⟩]) := by
  simp [graceWaitKill, exitAfterTerm?, hS, show t < t + G by omega]

/-- C4: a child that exits on its own strictly before the run period
elapses and strictly before any cancellation ends the cycle with its
real exit status; no SIGTERM and no SIGKILL is ever attempted in that
cycle (the event trace is empty). -/
theorem early_exit_no_signals (cfg : Cfg) (ch : Child) (cancel : Option Nat)
    (orc : Oracle) (e : Nat) (hL : ch.launchOK = true) (hS : ch.selfExit = some e)
    (hR : (e : Int) < cfg.runPeriod) (hC : ∀ c, cancel = some c → e < c) :
    run cfg ch cancel orc = (.completed ch.selfStatus, []) := by
  have h0 : ¬cfg.runPeriod ≤ 0 := by omega
  have he : e < cfg.runPeriod.toNat := by omega
  simp only [run, hL, hS, if_neg h0, Bool.not_true, Bool.false_eq_true, if_false,
    Option.getD_some]
  rcases cancel with _ | c
  · simp only [Option.getD_none,
      show min cfg.runPeriod.toNat (min cfg.runPeriod.toNat e) = e by omega,
      reduceCtorEq, if_false, eq_self_iff_true, if_true,
      if_neg (show ¬cfg.runPeriod.toNat = e by omega), List.nil_append, List.append_nil]
    rw [selectFirst_single]
  · have hce : e < c := hC c rfl
    simp only [Option.getD_some,
      show min cfg.runPeriod.toNat (min c e) = e by omega,
      if_neg (show ¬((some c : Option Nat) = some e) by simp; omega),
      eq_self_iff_true, if_true, if_neg (show ¬cfg.runPeriod.toNat = e by omega),
      List.nil_append, List.append_nil]
    rw [selectFirst_single]

theorem early_exit_no_signals_witness :
    run ⟨5, 3⟩ ⟨true, some 2, .exited 0, none, .exited 0⟩ none ⟨[], true⟩
      = (.completed (.exited 0), []) :=
  early_exit_no_signals ⟨5, 3⟩ ⟨true, some 2, .exited 0, none, .exited 0⟩ none ⟨[], true⟩
    2 rfl rfl (by norm_num) (fun c h => by cases h)

/-- C5 counterexample: with the child-exit event and the run-ticker
event ready at the same instant (child exits by itself exactly at the
run period), Go's `select` may take the ticker branch — here the
oracle prefers it — and then a SIGTERM send IS attempted (it fails,
the process is already reaped), so the claimed "the child-exit branch
is always taken and no termination signal is sent" is false: the
event trace is not empty. -/
theorem tie_timer_branch_attempts_sigterm :
    run ⟨5, 3⟩ ⟨true, some 5, .exited 0, none, .exited 0⟩ none ⟨[B1.runTick], false⟩
      = (.completed (.exited 0), [⟨5, SIGTERM, false⟩]) ∧
    (run ⟨5, 3⟩ ⟨true, some 5, .exited 0, none, .exited 0⟩ none ⟨[B1.runTick], false⟩).2
      ≠ ([] : List Sig) := by
  constructor
  · rfl
  · decide

/-- C5 amended: when the child's own exit is ready no later than the
timer and any cancellation (in particular at the very instant the run
ticker fires), `run` returns the child's Exit Outcome under EVERY
tie-break the runtime may choose, and no signal is ever delivered to
the child in that cycle — but the timer branch may be taken on a tie,
in which case a SIGTERM send is attempted and fails. -/
theorem tie_returns_child_outcome (cfg : Cfg) (ch : Child) (cancel : Option Nat)
    (orc : Oracle) (t : Nat) (hL : ch.launchOK = true) (hS : ch.selfExit = some t)
    (hR : (t : Int) ≤ cfg.runPeriod) (hRp : 0 < cfg.runPeriod)
    (hG : 0 < cfg.gracePeriod) (hC : ∀ c, cancel = some c → t ≤ c) :
    (run cfg ch cancel orc).1 = .completed ch.selfStatus ∧
    ∀ ev ∈ (run cfg ch cancel orc).2, ev.delivered = false := by
  have h0 : ¬cfg.runPeriod ≤ 0 := by omega
  have ht : t ≤ cfg.runPeriod.toNat := by omega
  have hm : min cfg.runPeriod.toNat ((cancel.getD cfg.runPeriod.toNat) ⊓ t) = t := by
    rcases cancel with _ | c
    · simp only [Option.getD_none]; omega
    · have := hC c rfl
      simp only [Option.getD_some]; omega
  simp only [run, hL, hS, if_neg h0, Bool.not_true, Bool.false_eq_true, if_false,
    Option.getD_some, hm, lt_self_iff_false, decide_False,
    if_neg (show ¬cfg.gracePeriod ≤ 0 by omega),
    graceWaitKill_undelivered_self ch cfg.gracePeriod.toNat t orc.pick2 hS (by omega)]
  constructor
  · split
    · rfl
    · rfl
  · intro ev hev
    revert hev
    split
    · intro hev
      simp at hev
    · intro hev
      simp only [List.mem_singleton] at hev
      rw [hev]

theorem tie_returns_child_outcome_witness :
    (run ⟨5, 3⟩ ⟨true, some 5, .exited 0, none, .exited 0⟩ none ⟨[B1.runTick], false⟩).1
      = .completed (.exited 0) ∧
    ∀ ev ∈ (run ⟨5, 3⟩ ⟨true, some 5, .exited 0, none, .exited 0⟩ none
        ⟨[B1.runTick], false⟩).2, ev.delivered = false :=
  tie_returns_child_outcome ⟨5, 3⟩ ⟨true, some 5, .exited 0, none, .exited 0⟩ none
    ⟨[B1.runTick], false⟩ 5 rfl rfl (by norm_num) (by norm_num) (by norm_num)
    (fun c h => by cases h)

/-- C6: the Cancellation Token is level-triggered and monotone — once
raised at tick `c` it stays raised at every later tick — and a cycle
that enters Running with the token already raised (cancellation tick 0,
child still alive at that instant) escalates immediately: its very
first event is a delivered SIGTERM at tick 0, with no wait for the
run-period ticker. -/
theorem cancellation_level_triggered :
    (∀ (cancel : Option Nat) (s t : Nat),
      cancelRaised cancel s → s ≤ t → cancelRaised cancel t) ∧
    (∀ (cfg : Cfg) (ch : Child) (orc : Oracle), 0 < cfg.runPeriod →
      ch.launchOK = true → ch.selfExit ≠ some 0 →
      ((run cfg ch (some 0) orc).2).head? = some ⟨0, SIGTERM, true⟩) := by
  constructor
  · rintro cancel s t ⟨c, hc, hcs⟩ hst
    exact ⟨c, hc, le_trans hcs hst⟩
  · intro cfg ch orc hR hL hS0
    have h0 : ¬cfg.runPeriod ≤ 0 := by omega
    have hRn : 0 < cfg.runPeriod.toNat := by omega
    have hm : min cfg.runPeriod.toNat (min 0 (ch.selfExit.getD cfg.runPeriod.toNat)) = 0 := by
      omega
    simp only [run, hL, if_neg h0, Bool.not_true, Bool.false_eq_true, if_false,
      Option.getD_some, hm, eq_self_iff_true, if_true,
      if_neg (show ¬ch.selfExit = some 0 from hS0),
      if_neg (show ¬cfg.runPeriod.toNat = 0 by omega), List.append_nil, List.nil_append]
    rw [selectFirst_single]
    have hdel : (match ch.selfExit with
        | none => true
        | some t => decide (0 < t)) = true := by
      rcases hse : ch.selfExit with _ | t
      · rfl
      · have ht : 0 < t := Nat.pos_of_ne_zero (fun h => hS0 (by rw [hse, h]))
        simp [ht]
    rw [hdel]
    by_cases hg : cfg.gracePeriod ≤ 0
    · simp only [if_pos hg]
      rfl
    · simp only [if_neg hg]
      exact graceWaitKill_head ch _ 0 true orc.pick2

theorem cancellation_level_triggered_witness :
    cancelRaised (some 2) 7 ∧
    ((run ⟨5, 3⟩ ⟨true, none, .exited 0, none, .exited 0⟩ (some 0) ⟨[], true⟩).2).head?
      = some ⟨0, SIGTERM, true⟩ :=
  ⟨cancellation_level_triggered.1 (some 2) 2 7 ⟨2, rfl, le_refl 2⟩ (by norm_num),
   cancellation_level_triggered.2 ⟨5, 3⟩ ⟨true, none, .exited 0, none, .exited 0⟩
     ⟨[], true⟩ (by norm_num) rfl (by simp)⟩

/-- C9: `time.NewTicker` panics on a non-positive duration.  With
`runPeriod ≤ 0` the cycle panics before the child is ever started —
the trace is empty and even a failing launch is never reported.  With
`runPeriod > 0` and `gracePeriod ≤ 0`, a cycle that reaches the
escalation (child never exits by itself) panics only when the grace
ticker is built, after the SIGTERM has already been sent. -/
theorem nonpositive_durations_panic (cfg : Cfg) (ch : Child) (cancel : Option Nat)
    (orc : Oracle) :
    (cfg.runPeriod ≤ 0 → run cfg ch cancel orc = (.panicked, [])) ∧
    (0 < cfg.runPeriod → cfg.gracePeriod ≤ 0 → ch.launchOK = true →
      ch.selfExit = none →
      run cfg ch cancel orc =
        (.panicked,
         [⟨min cfg.runPeriod.toNat (cancel.getD cfg.runPeriod.toNat), SIGTERM, true⟩])) := by
  constructor
  · intro h
    simp [run, h]
  · intro hR hG hL hS
    rw [run_escalates cfg ch cancel orc hR hL hS, if_pos hG]

theorem nonpositive_durations_panic_witness :
    run ⟨0, 3⟩ ⟨false, none, .exited 0, none, .exited 0⟩ none ⟨[], true⟩
      = (.panicked, []) ∧
    run ⟨5, 0⟩ ⟨true, none, .exited 0, none, .exited 0⟩ none ⟨[], true⟩
      = (.panicked, [⟨5, SIGTERM, true⟩]) :=
  ⟨(nonpositive_durations_panic ⟨0, 3⟩ ⟨false, none, .exited 0, none, .exited 0⟩
      none ⟨[], true⟩).1 (by norm_num),
   (nonpositive_durations_panic ⟨5, 0⟩ ⟨true, none, .exited 0, none, .exited 0⟩
      none ⟨[], true⟩).2 (by norm_num) (by norm_num) rfl rfl⟩

theorem phases_agree (ch : Child) (G tEsc : Nat) (del p : Bool) :
    (ctxKillWait ch (tEsc + G) tEsc del).1 = (graceWaitKill ch G tEsc del p).1 ∧
    ((ctxKillWait ch (tEsc + G) tEsc del).2).filter (fun e => e.delivered)
      = ((graceWaitKill ch G tEsc del p).2).filter (fun e => e.delivered) := by
  simp only [ctxKillWait, graceWaitKill]
  rcases exitAfterTerm? ch tEsc del with _ | ⟨t, st⟩
  · exact ⟨rfl, rfl⟩
  · dsimp only
    rcases lt_trichotomy t (tEsc + G) with h | h | h
    · rw [if_pos (le_of_lt h), if_pos h]
      exact ⟨rfl, rfl⟩
    · rw [if_pos (le_of_eq h), if_neg (show ¬t < tEsc + G by omega), if_pos h]
      cases p
      · refine ⟨rfl, ?_⟩
        simp [List.filter]
      · exact ⟨rfl, rfl⟩
    · rw [if_neg (show ¬t ≤ tEsc + G by omega), if_neg (show ¬t < tEsc + G by omega),
        if_neg (show ¬t = tEsc + G by omega)]
      exact ⟨rfl, rfl⟩

/-- C10 counterexample: under cancellation at tick 1 during Running the
two generations of `run` send different signals.  The earlier one
never sends SIGTERM — the `exec.CommandContext` machinery SIGKILLs the
child at tick 1, skipping the grace phase entirely; the later one
sends SIGTERM at tick 1 and SIGKILLs only at tick 4, after the full
grace period.  Their signal traces differ, refuting equivalence. -/
theorem runOld_run_traces_differ :
    runOld ⟨5, 3⟩ ⟨true, none, .exited 0, none, .exited 0⟩ (some 1) ⟨[], true⟩
      = (.completed (.signaled SIGKILL), [⟨1, SIGKILL, true⟩]) ∧
    run ⟨5, 3⟩ ⟨true, none, .exited 0, none, .exited 0⟩ (some 1) ⟨[], true⟩
      = (.completed (.signaled SIGKILL), [⟨1, SIGTERM, true⟩, ⟨4, SIGKILL, true⟩]) ∧
    (runOld ⟨5, 3⟩ ⟨true, none, .exited 0, none, .exited 0⟩ (some 1) ⟨[], true⟩).2
      ≠ (run ⟨5, 3⟩ ⟨true, none, .exited 0, none, .exited 0⟩ (some 1) ⟨[], true⟩).2 := by
  refine ⟨rfl, rfl, ?_⟩
  decide

/-- C10 amended: restricted to cycles with no cancellation and positive
durations, the two generations of `run` are behaviorally equivalent —
for every child behaviour and every runtime tie-break they produce the
same Exit Outcome and deliver the same signals in the same order.
(Undelivered send attempts can differ on ties, and cancellation or a
non-positive grace duration genuinely separate the two versions.) -/
theorem runOld_run_equiv_no_cancel (cfg : Cfg) (ch : Child) (orc : Oracle)
    (hR : 0 < cfg.runPeriod) (hG : 0 < cfg.gracePeriod) :
    (runOld cfg ch none orc).1 = (run cfg ch none orc).1 ∧
    ((runOld cfg ch none orc).2).filter (fun e => e.delivered)
      = ((run cfg ch none orc).2).filter (fun e => e.delivered) := by
  have h0 : ¬cfg.runPeriod ≤ 0 := by omega
  have hg0 : ¬cfg.gracePeriod ≤ 0 := by omega
  have hto : (cfg.runPeriod + cfg.gracePeriod).toNat
      = cfg.runPeriod.toNat + cfg.gracePeriod.toNat := by omega
  cases hL : ch.launchOK
  · constructor <;> simp [run, runOld, h0, hL]
  · rcases hse : ch.selfExit with _ | t
    · simp only [run, runOld, hL, hse, if_neg h0, Bool.not_true, Bool.false_eq_true,
        if_false, Option.getD_none, hto, reduceCtorEq, List.nil_append, List.append_nil,
        show min (cfg.runPeriod.toNat + cfg.gracePeriod.toNat) cfg.runPeriod.toNat
          = cfg.runPeriod.toNat by omega,
        Nat.min_self,
        if_neg (show ¬cfg.runPeriod.toNat + cfg.gracePeriod.toNat
          = cfg.runPeriod.toNat by omega),
        eq_self_iff_true, if_true, if_neg hg0,
        decide_eq_true (show cfg.runPeriod.toNat
          < cfg.runPeriod.toNat + cfg.gracePeriod.toNat by omega)]
      rw [selectFirst_single]
      exact phases_agree ch cfg.gracePeriod.toNat cfg.runPeriod.toNat true orc.pick2
    · rcases lt_trichotomy t cfg.runPeriod.toNat with h | h | h
      · simp only [run, runOld, hL, hse, if_neg h0, Bool.not_true, Bool.false_eq_true,
          if_false, Option.getD_none, Option.getD_some, hto, reduceCtorEq,
          List.nil_append, List.append_nil,
          show min t (cfg.runPeriod.toNat + cfg.gracePeriod.toNat) = t by omega,
          show min t cfg.runPeriod.toNat = t by omega,
          show min cfg.runPeriod.toNat (min cfg.runPeriod.toNat t) = t by omega,
          eq_self_iff_true, if_true,
          if_neg (show ¬cfg.runPeriod.toNat = t by omega)]
        rw [selectFirst_single]
        simp [if_pos (show t ≤ cfg.runPeriod.toNat + cfg.gracePeriod.toNat by omega)]
      · simp only [run, runOld, hL, hse, if_neg h0, Bool.not_true, Bool.false_eq_true,
          if_false, Option.getD_none, Option.getD_some, hto, reduceCtorEq,
          List.nil_append, List.append_nil,
          show min t (cfg.runPeriod.toNat + cfg.gracePeriod.toNat)
            = cfg.runPeriod.toNat by omega,
          show min cfg.runPeriod.toNat (min cfg.runPeriod.toNat t)
            = cfg.runPeriod.toNat by omega,
          Nat.min_self,
          if_pos (show (some t : Option Nat) = some cfg.runPeriod.toNat by rw [h]),
          eq_self_iff_true, if_true, if_neg hg0, lt_self_iff_false, decide_False,
          decide_eq_false (show ¬cfg.runPeriod.toNat < t by omega),
          List.singleton_append]
        have hmem := selectFirst_mem [B1.childDone, B1.runTick] orc.pick1 (by simp)
        rcases hsel : selectFirst [B1.childDone, B1.runTick] orc.pick1 with _ | _ | _
        · rw [hsel] at hmem
          simp at hmem
        · simp [if_pos (show t ≤ cfg.runPeriod.toNat + cfg.gracePeriod.toNat by omega)]
        · exact phases_agree ch cfg.gracePeriod.toNat cfg.runPeriod.toNat false orc.pick2
      · simp only [run, runOld, hL, hse, if_neg h0, Bool.not_true, Bool.false_eq_true,
          if_false, Option.getD_none, Option.getD_some, hto, reduceCtorEq,
          List.nil_append, List.append_nil,
          show min (min t (cfg.runPeriod.toNat + cfg.gracePeriod.toNat))
            cfg.runPeriod.toNat = cfg.runPeriod.toNat by omega,
          show min cfg.runPeriod.toNat (min cfg.runPeriod.toNat t)
            = cfg.runPeriod.toNat by omega,
          if_neg (show ¬min t (cfg.runPeriod.toNat + cfg.gracePeriod.toNat)
            = cfg.runPeriod.toNat by omega),
          if_neg (show ¬((some t : Option Nat) = some cfg.runPeriod.toNat) by simp; omega),
          eq_self_iff_true, if_true, if_neg hg0,
          decide_eq_true (show cfg.runPeriod.toNat
            < min t (cfg.runPeriod.toNat + cfg.gracePeriod.toNat) by omega),
          decide_eq_true (show cfg.runPeriod.toNat < t by omega)]
        rw [selectFirst_single]
        exact phases_agree ch cfg.gracePeriod.toNat cfg.runPeriod.toNat true orc.pick2
theorem runOld_run_equiv_no_cancel_witness :
    (runOld ⟨5, 3⟩ ⟨true, none, .exited 0, some 1, .exited 0⟩ none ⟨[], true⟩).1
      = (run ⟨5, 3⟩ ⟨true, none, .exited 0, some 1, .exited 0⟩ none ⟨[], true⟩).1 ∧
    ((runOld ⟨5, 3⟩ ⟨true, none, .exited 0, some 1, .exited 0⟩ none ⟨[], true⟩).2).filter
        (fun e => e.delivered)
      = ((run ⟨5, 3⟩ ⟨true, none, .exited 0, some 1, .exited 0⟩ none
          ⟨[], true⟩).2).filter (fun e => e.delivered) :=
  runOld_run_equiv_no_cancel ⟨5, 3⟩ ⟨true, none, .exited 0, some 1, .exited 0⟩
    ⟨[], true⟩ (by norm_num) (by norm_num)
